import Mathlib

/-!
Shallow embedding of the photgraf headshot application (TypeScript sources:
the Gemini service module and the App view-state controller), together with
proofs of the behavioural properties stated in the specification.

Byte buffers (JS `ArrayBuffer`/`DataView`/`Uint8Array`) are modelled as
`List Nat` whose elements are bytes; JS 32/16-bit stores wrap modulo the
field width, which is reflected by taking `% 256` on each extracted digit.
Strings are modelled as Lean `String` (or `List Char` where the code
inspects individual characters).  Remote calls are modelled by oracle
parameters of type `Except String _`: `.error e` is a thrown fault whose
`message` is `e`.
-/

namespace Photograf

/-- Model of `DataView.setUint8` (stores the value modulo 256). -/
def setU8 (buf : List Nat) (off v : Nat) : List Nat :=
  buf.set off (v % 256)

/-- Model of `DataView.setUint16(off, v, true)`: little-endian 16-bit store.
JS first reduces the value modulo 2^16; byte k of that reduction equals
`v / 256^k % 256`, which is how the two stores are expressed here. -/
def setU16LE (buf : List Nat) (off v : Nat) : List Nat :=
  setU8 (setU8 buf off v) (off + 1) (v / 256)

/-- Model of `DataView.setUint32(off, v, true)`: little-endian 32-bit store. -/
def setU32LE (buf : List Nat) (off v : Nat) : List Nat :=
  setU8 (setU8 (setU8 (setU8 buf off v) (off + 1) (v / 256))
    (off + 2) (v / 65536)) (off + 3) (v / 16777216)

/-- Helper for `writeString`: write the char codes of `cs` at consecutive
offsets starting at `off` (the service module's `writeString` loop). -/
def writeChars (buf : List Nat) (off : Nat) : List Char → List Nat
  | [] => buf
  | c :: cs => writeChars (buf.set off (c.toNat % 256)) (off + 1) cs

/-- Model of the service module's `writeString(view, offset, str)`. -/
def writeString (buf : List Nat) (off : Nat) (s : String) : List Nat :=
  writeChars buf off s.data

/-- The `for` loop of `pcmToWav` copying the PCM bytes after the header. -/
def writeBytes (buf : List Nat) (off : Nat) : List Nat → List Nat
  | [] => buf
  | b :: bs => writeBytes (buf.set off (b % 256)) (off + 1) bs

/-- Model of the service module's `pcmToWav(pcmData, sampleRate)`: builds a
44-byte RIFF/WAVE header followed by the raw PCM bytes.  The fresh
`ArrayBuffer(44 + dataSize)` is zero-initialised, modelled by
`List.replicate`. -/
def pcmToWav (pcmData : List Nat) (sampleRate : Nat) : List Nat :=
  let numChannels := 1
  let bitsPerSample := 16
  let blockAlign := numChannels * bitsPerSample / 8
  let byteRate := sampleRate * blockAlign
  let dataSize := pcmData.length
  let buffer := List.replicate (44 + dataSize) 0
  let v1 := writeString buffer 0 "RIFF"
  let v2 := setU32LE v1 4 (36 + dataSize)
  let v3 := writeString v2 8 "WAVE"
  let v4 := writeString v3 12 "fmt "
  let v5 := setU32LE v4 16 16
  let v6 := setU16LE v5 20 1
  let v7 := setU16LE v6 22 numChannels
  let v8 := setU32LE v7 24 sampleRate
  let v9 := setU32LE v8 28 byteRate
  let v10 := setU16LE v9 32 blockAlign
  let v11 := setU16LE v10 34 bitsPerSample
  let v12 := writeString v11 36 "data"
  let v13 := setU32LE v12 40 dataSize
  writeBytes v13 44 pcmData

/-- Reading four bytes little-endian, the way the WAV header size fields are
interpreted by a consumer. -/
def readU32LE (buf : List Nat) (off : Nat) : Nat :=
  (buf[off]?).getD 0 + 256 * (buf[off + 1]?).getD 0 +
    65536 * (buf[off + 2]?).getD 0 + 16777216 * (buf[off + 3]?).getD 0

theorem writeChars_length (cs : List Char) (buf : List Nat) (off : Nat) :
    (writeChars buf off cs).length = buf.length := by
  induction cs generalizing buf off with
  | nil => rfl
  | cons c cs ih => simp [writeChars, ih]

theorem writeBytes_length (bs : List Nat) (buf : List Nat) (off : Nat) :
    (writeBytes buf off bs).length = buf.length := by
  induction bs generalizing buf off with
  | nil => rfl
  | cons b bs ih => simp [writeBytes, ih]

theorem writeBytes_getElem?_lt (bs : List Nat) (buf : List Nat) (off j : Nat)
    (h : j < off) : (writeBytes buf off bs)[j]? = buf[j]? := by
  induction bs generalizing buf off with
  | nil => rfl
  | cons b bs ih =>
      rw [writeBytes, ih _ _ (Nat.lt_succ_of_lt h),
        List.getElem?_set_ne (Nat.ne_of_gt h)]

theorem writeChars_getElem?_lt (cs : List Char) (buf : List Nat) (off j : Nat)
    (h : j < off) : (writeChars buf off cs)[j]? = buf[j]? := by
  induction cs generalizing buf off with
  | nil => rfl
  | cons c cs ih =>
      rw [writeChars, ih _ _ (Nat.lt_succ_of_lt h),
        List.getElem?_set_ne (Nat.ne_of_gt h)]

theorem pcmToWav_length (pcmData : List Nat) (sampleRate : Nat) :
    (pcmToWav pcmData sampleRate).length = 44 + pcmData.length := by
  simp [pcmToWav, setU32LE, setU16LE, setU8, writeString, writeBytes_length,
    writeChars_length]

theorem pcmToWav_byte4 (pcm : List Nat) (sr : Nat) :
    (pcmToWav pcm sr)[4]? = some ((36 + pcm.length) % 256) := by
  have h : 4 < 44 + pcm.length := by omega
  simp [pcmToWav, writeString, writeChars, setU32LE, setU16LE, setU8,
    writeBytes_getElem?_lt, writeChars_length, h]

theorem pcmToWav_byte5 (pcm : List Nat) (sr : Nat) :
    (pcmToWav pcm sr)[5]? = some ((36 + pcm.length) / 256 % 256) := by
  have h : 5 < 44 + pcm.length := by omega
  simp [pcmToWav, writeString, writeChars, setU32LE, setU16LE, setU8,
    writeBytes_getElem?_lt, writeChars_length, h]

theorem pcmToWav_byte6 (pcm : List Nat) (sr : Nat) :
    (pcmToWav pcm sr)[6]? = some ((36 + pcm.length) / 65536 % 256) := by
  have h : 6 < 44 + pcm.length := by omega
  simp [pcmToWav, writeString, writeChars, setU32LE, setU16LE, setU8,
    writeBytes_getElem?_lt, writeChars_length, h]

theorem pcmToWav_byte7 (pcm : List Nat) (sr : Nat) :
    (pcmToWav pcm sr)[7]? = some ((36 + pcm.length) / 16777216 % 256) := by
  have h : 7 < 44 + pcm.length := by omega
  simp [pcmToWav, writeString, writeChars, setU32LE, setU16LE, setU8,
    writeBytes_getElem?_lt, writeChars_length, h]

theorem pcmToWav_byte40 (pcm : List Nat) (sr : Nat) :
    (pcmToWav pcm sr)[40]? = some (pcm.length % 256) := by
  have h : 40 < 44 + pcm.length := by omega
  simp [pcmToWav, writeString, writeChars, setU32LE, setU16LE, setU8,
    writeBytes_getElem?_lt, writeChars_length, h]

theorem pcmToWav_byte41 (pcm : List Nat) (sr : Nat) :
    (pcmToWav pcm sr)[41]? = some (pcm.length / 256 % 256) := by
  have h : 41 < 44 + pcm.length := by omega
  simp [pcmToWav, writeString, writeChars, setU32LE, setU16LE, setU8,
    writeBytes_getElem?_lt, writeChars_length, h]

theorem pcmToWav_byte42 (pcm : List Nat) (sr : Nat) :
    (pcmToWav pcm sr)[42]? = some (pcm.length / 65536 % 256) := by
  have h : 42 < 44 + pcm.length := by omega
  simp [pcmToWav, writeString, writeChars, setU32LE, setU16LE, setU8,
    writeBytes_getElem?_lt, writeChars_length, h]

theorem pcmToWav_byte43 (pcm : List Nat) (sr : Nat) :
    (pcmToWav pcm sr)[43]? = some (pcm.length / 16777216 % 256) := by
  have h : 43 < 44 + pcm.length := by omega
  simp [pcmToWav, writeString, writeChars, setU32LE, setU16LE, setU8,
    writeBytes_getElem?_lt, writeChars_length, h]

/-- C1: the byte stream produced by `pcmToWav` has length exactly
`44 + pcmData.length`; its bytes 4-7 read as a little-endian 32-bit integer
equal `36 + pcmData.length`, and its bytes 40-43 read little-endian equal
`pcmData.length`.  The hypothesis bounds the data size by the 32-bit width
of the header fields, which every JS `ArrayBuffer` satisfies. -/
theorem pcmToWav_header_spec (pcmData : List Nat) (sampleRate : Nat)
    (h : 36 + pcmData.length < 4294967296) :
    (pcmToWav pcmData sampleRate).length = 44 + pcmData.length ∧
    readU32LE (pcmToWav pcmData sampleRate) 4 = 36 + pcmData.length ∧
    readU32LE (pcmToWav pcmData sampleRate) 40 = pcmData.length := by
  refine ⟨pcmToWav_length _ _, ?_, ?_⟩
  · rw [readU32LE]
    norm_num [pcmToWav_byte4, pcmToWav_byte5, pcmToWav_byte6, pcmToWav_byte7]
    omega
  · rw [readU32LE]
    norm_num [pcmToWav_byte40, pcmToWav_byte41, pcmToWav_byte42,
      pcmToWav_byte43]
    omega

/-- Witness for `pcmToWav_header_spec` at a concrete three-byte input. -/
theorem pcmToWav_header_spec_witness :
    36 + [1, 2, 3].length < 4294967296 ∧
    ((pcmToWav [1, 2, 3] 8000).length = 44 + [1, 2, 3].length ∧
      readU32LE (pcmToWav [1, 2, 3] 8000) 4 = 36 + [1, 2, 3].length ∧
      readU32LE (pcmToWav [1, 2, 3] 8000) 40 = [1, 2, 3].length) :=
  ⟨by decide, pcmToWav_header_spec [1, 2, 3] 8000 (by decide)⟩

/-- JS regex `\w`: ASCII letters, digits and underscore. -/
def isJsWordChar (c : Char) : Bool :=
  (65 ≤ c.toNat && c.toNat ≤ 90) || (97 ≤ c.toNat && c.toNat ≤ 122) ||
    (48 ≤ c.toNat && c.toNat ≤ 57) || c == '_'

/-- JS regex `.` (without the `s` flag) rejects exactly the four line
terminators. -/
def isLineTerm (c : Char) : Bool :=
  c == Char.ofNat 10 || c == Char.ofNat 13 ||
    c == Char.ofNat 0x2028 || c == Char.ofNat 0x2029

/-- Semantics of `base64.match(/^data:(image\/\w+);base64,(.*)$/)` from the
service module's `fileToGenerativePart`.  The anchored regex matches iff the
input is the literal head `data:image/`, then a non-empty run of word
characters (group 1 is `image/` plus that run), then the literal
`;base64,`, then a line-terminator-free tail (group 2) reaching the end of
the string; `\w+` is greedy and `;` is not a word character, so the run is
the maximal one. -/
def matchDataUrl (s : List Char) : Option (List Char × List Char) :=
  if s.take 11 = "data:image/".data then
    if (s.drop 11).takeWhile isJsWordChar ≠ [] ∧
        ((s.drop 11).dropWhile isJsWordChar).take 8 = ";base64,".data ∧
        (((s.drop 11).dropWhile isJsWordChar).drop 8).all
          (fun c => !isLineTerm c) then
      some ("image/".data ++ (s.drop 11).takeWhile isJsWordChar,
        ((s.drop 11).dropWhile isJsWordChar).drop 8)
    else none
  else none

/-- Model of the service module's `fileToGenerativePart`: on a regex match it
returns the `\x7bmimeType, data\x7d` pair of capture groups, otherwise it
throws `Invalid base64 string format`. -/
def fileToGenerativePart (s : List Char) :
    Except String (List Char × List Char) :=
  match matchDataUrl s with
  | some (m, d) => .ok (m, d)
  | none => .error "Invalid base64 string format"

theorem takeWhile_word_append (w t : List Char)
    (hw : w.all isJsWordChar = true) :
    (w ++ ';' :: t).takeWhile isJsWordChar = w ∧
      (w ++ ';' :: t).dropWhile isJsWordChar = ';' :: t := by
  induction w with
  | nil => exact ⟨rfl, rfl⟩
  | cons c cs ih =>
      simp only [List.all_cons, Bool.and_eq_true] at hw
      have := ih hw.2
      simp [List.takeWhile_cons, List.dropWhile_cons, hw.1, this.1, this.2]

/-- C2: every string of the regex-matching form
`data:image/<word-run>;base64,<terminator-free payload>` decodes to exactly
the embedded mime type (`image/` plus the word run) and exactly the embedded
payload; every non-matching string fails with the invalid-format error. -/
theorem fileToGenerativePart_spec (w p : List Char) (hw : w ≠ [])
    (hword : w.all isJsWordChar = true)
    (hp : p.all (fun c => !isLineTerm c) = true) :
    fileToGenerativePart
        ("data:image/".data ++ w ++ ";base64,".data ++ p) =
      .ok ("image/".data ++ w, p) ∧
    ∀ s : List Char, matchDataUrl s = none →
      fileToGenerativePart s = .error "Invalid base64 string format" := by
  constructor
  · have hsplit : "data:image/".data ++ w ++ ";base64,".data ++ p =
        "data:image/".data ++ (w ++ ';' :: ("base64,".data ++ p)) := by
      simp [String.data]
    have hspan := takeWhile_word_append w ("base64,".data ++ p) hword
    rw [fileToGenerativePart, matchDataUrl, hsplit,
      List.take_left' (by rfl), List.drop_left' (by rfl),
      hspan.1, hspan.2]
    have htake : (';' :: ("base64,".data ++ p)).take 8 = ";base64,".data := by
      have : (';' :: ("base64,".data ++ p)) = ";base64,".data ++ p := by
        simp [String.data]
      rw [this, List.take_left' (by rfl)]
    have hdrop : (';' :: ("base64,".data ++ p)).drop 8 = p := by
      have : (';' :: ("base64,".data ++ p)) = ";base64,".data ++ p := by
        simp [String.data]
      rw [this, List.drop_left' (by rfl)]
    rw [htake, hdrop]
    simp [hw, hp]
  · intro s hs
    simp [fileToGenerativePart, hs]

/-- Witness for `fileToGenerativePart_spec`: the data URL
`data:image/png;base64,QUJD` decodes to mime `image/png` and payload
`QUJD`. -/
theorem fileToGenerativePart_spec_witness :
    fileToGenerativePart
        ("data:image/".data ++ "png".data ++ ";base64,".data ++ "QUJD".data) =
      .ok ("image/".data ++ "png".data, "QUJD".data) :=
  (fileToGenerativePart_spec "png".data "QUJD".data (by decide) (by decide)
    (by decide)).1

/-- Does `needle` occur starting at some position of the second list? -/
def containsAux (needle : List Char) : List Char → Bool
  | [] => needle.isPrefixOf []
  | c :: rest => needle.isPrefixOf (c :: rest) || containsAux needle rest

/-- Substring test, modelling JS `String.prototype.includes`. -/
def containsSub (needle hay : String) : Bool :=
  containsAux needle.data hay.data

/-- One part of `response.candidates[0].content.parts`: either inline media
data with a mime type, or something else (e.g. a text part). -/
inductive RespPart
  | inlinePart (data : String) (mimeType : String)
  | otherPart (t : String)
deriving DecidableEq

/-- The `for ... if (part.inlineData)` loop of `generateImage`: the first
part carrying inline data, if any. -/
def firstInline : List RespPart → Option (String × String)
  | [] => none
  | .inlinePart d m :: _ => some (d, m)
  | .otherPart _ :: rest => firstInline rest

/-- The fixed likeness-preserving prompt augmentation of `generateImage`. -/
def fullPrompt (prompt : String) (isEdit : Bool) : String :=
  if isEdit then
    prompt ++ ". Apply this edit while preserving the person" ++
      String.singleton (Char.ofNat 39) ++
      "s core facial features and likeness."
  else
    prompt ++ ". Ensure the person" ++ String.singleton (Char.ofNat 39) ++
      "s facial features are preserved from the original image but place " ++
      "them in the described professional setting with appropriate " ++
      "attire. The final image should be a high-quality, realistic headshot."

/-- The catch block of `generateImage`. -/
def normalizeImageError (e : String) : String :=
  if containsSub "API key" e then
    "The API key is invalid or missing. Please check your configuration."
  else
    "Failed to generate the image due to an API error. Please try again later."

/-- The try block of `generateImage`: decode the input data URL (its throw
propagates to the catch), call the remote model (the oracle `remote`; a
`.error` is a thrown fault), and return the first inline image part as a
data URL, throwing the no-image message when none exists. -/
def generateImageBody (base64Image : List Char)
    (remote : Except String (List RespPart)) : Except String String :=
  match matchDataUrl base64Image with
  | none => .error "Invalid base64 string format"
  | some _ =>
    match remote with
    | .error e => .error e
    | .ok parts =>
      match firstInline parts with
      | some (d, m) => .ok ("data:" ++ m ++ ";base64," ++ d)
      | none => .error "No image data was found in the API response."

/-- Model of the exported `generateImage`: the try body, with every thrown
fault re-raised through the catch block's normalization. -/
def generateImage (base64Image : List Char) (prompt : String) (isEdit : Bool)
    (remote : Except String (List RespPart)) : Except String String :=
  match generateImageBody base64Image remote with
  | .ok v => .ok v
  | .error e => .error (normalizeImageError e)

/-- The catch block of `generateSpeech`. -/
def normalizeSpeechError (e : String) : String :=
  if containsSub "API key" e then
    "The API key is invalid or missing. Please check your configuration."
  else
    "Failed to generate audio due to an API error."

/-- The 6-bit value of a base64 alphabet character (browser `atob`). -/
def b64Val (c : Char) : Option Nat :=
  if 65 ≤ c.toNat ∧ c.toNat ≤ 90 then some (c.toNat - 65)
  else if 97 ≤ c.toNat ∧ c.toNat ≤ 122 then some (c.toNat - 71)
  else if 48 ≤ c.toNat ∧ c.toNat ≤ 57 then some (c.toNat + 4)
  else if c == '+' then some 62
  else if c == '/' then some 63
  else none

/-- Reassemble bytes from 6-bit groups (browser `atob` core). -/
def b64Bytes : List Nat → List Nat
  | a :: b :: c :: d :: rest =>
      (a * 4 + b / 16) :: (b % 16 * 16 + c / 4) :: (c % 4 * 64 + d) ::
        b64Bytes rest
  | [a, b] => [a * 4 + b / 16]
  | [a, b, c] => [a * 4 + b / 16, b % 16 * 16 + c / 4]
  | _ => []

/-- Model of the browser's `atob`, used by the service module's `decode`:
strips ASCII whitespace, strips up to two trailing `=`, rejects invalid
characters and a leftover length of 1 modulo 4. -/
def atobModel (s : List Char) : Option (List Nat) :=
  let trimmed := (s.filter (fun c =>
    !(c == ' ' || c == Char.ofNat 9 || c == Char.ofNat 10 ||
      c == Char.ofNat 12 || c == Char.ofNat 13)))
  let core :=
    match trimmed.reverse with
    | '=' :: '=' :: rest => rest.reverse
    | '=' :: rest => rest.reverse
    | _ => trimmed
  match core.mapM b64Val with
  | none => none
  | some vals => if vals.length % 4 = 1 then none else some (b64Bytes vals)

/-- The try block of `generateSpeech`: call the TTS model (oracle; `.ok
none` is a response without an inline audio part), throw the no-audio
message when no audio came back, then `decode` the base64 audio and wrap it
with `pcmToWav` at 24 kHz.  The returned handle is modelled as the WAV byte
stream the object URL dereferences to. -/
def generateSpeechBody (remote : Except String (Option String)) :
    Except String (List Nat) :=
  match remote with
  | .error e => .error e
  | .ok none => .error "No audio data found in the API response."
  | .ok (some b64) =>
    match atobModel b64.data with
    | none => .error "InvalidCharacterError: invalid base64 input."
    | some pcm => .ok (pcmToWav pcm 24000)

/-- Model of the exported `generateSpeech`. -/
def generateSpeech (remote : Except String (Option String)) :
    Except String (List Nat) :=
  match generateSpeechBody remote with
  | .ok v => .ok v
  | .error e => .error (normalizeSpeechError e)

/-- The long-running video operation as the polling loop observes it:
`done`, and the optional
`response?.generatedVideos?.[0]?.video?.uri` chain. -/
structure VideoOp where
  done : Bool
  uri : Option String
deriving DecidableEq

/-- The download `fetch` response: `ok`, `statusText`, and the blob
payload. -/
structure FetchResp where
  ok : Bool
  statusText : String
  blobBytes : List Nat
deriving DecidableEq

/-- Oracle for one `generateVideo` execution: the result of the initial
`generateVideos` submission, the successive results of
`getVideosOperation` polls, and the result of the download `fetch`.
`.error` entries are thrown faults. -/
structure VideoOracle where
  submit : Except String VideoOp
  polls : List (Except String VideoOp)
  fetch : Except String FetchResp

/-- The `while (!operation.done)` polling loop.  `none` means the poll
results ran out while the operation was still pending, i.e. the loop
never terminates. -/
def pollUntilDone (op : VideoOp) :
    List (Except String VideoOp) → Option (Except String VideoOp)
  | [] => if op.done then some (.ok op) else none
  | p :: rest =>
    if op.done then some (.ok op)
    else
      match p with
      | .error e => some (.error e)
      | .ok op2 => pollUntilDone op2 rest

/-- The catch block of `generateVideo`: an `API key` fault maps to the
credential message, otherwise a `not found` fault maps to the
key-validation message, otherwise the generic message. -/
def normalizeVideoError (e : String) : String :=
  if containsSub "API key" e then
    "The API key is invalid or missing. Please select a valid key and try again."
  else if containsSub "not found" e then
    "API Key validation failed. Please re-select your API key and try again."
  else
    "Failed to generate the video due to an API error. Please try again later."

/-- The try block of `generateVideo`.  The first component of the result
collects the `onProgress` invocations in order; the second is `none` when
the polling loop never terminates, otherwise the thrown fault or the
returned handle (modelled as the blob bytes the object URL dereferences
to). -/
def generateVideoBody (base64Image : List Char) (o : VideoOracle) :
    List String × Option (Except String (List Nat)) :=
  match matchDataUrl base64Image with
  | none => ([], some (.error "Invalid base64 string format"))
  | some _ =>
    match o.submit with
    | .error e => (["Initiating video generation..."], some (.error e))
    | .ok op =>
      let msgs := ["Initiating video generation...",
        "Generation in progress... This may take several minutes."]
      match pollUntilDone op o.polls with
      | none => (msgs, none)
      | some (.error e) => (msgs, some (.error e))
      | some (.ok finalOp) =>
        match finalOp.uri with
        | none => (msgs, some (.error
            "Video generation finished but no video URI was found."))
        | some _ =>
          let msgs3 := msgs ++ ["Downloading generated video..."]
          match o.fetch with
          | .error e => (msgs3, some (.error e))
          | .ok resp =>
            if !resp.ok then
              (msgs3, some (.error
                ("Failed to download video: " ++ resp.statusText)))
            else (msgs3, some (.ok resp.blobBytes))

/-- Model of the exported `generateVideo`: the try body with thrown faults
re-raised through the catch block's normalization.  The `prompt` and
`aspectRatio` arguments only shape the remote request, which the oracle
stands for. -/
def generateVideoRun (base64Image : List Char) (o : VideoOracle) :
    List String × Option (Except String (List Nat)) :=
  match generateVideoBody base64Image o with
  | (msgs, none) => (msgs, none)
  | (msgs, some (.ok v)) => (msgs, some (.ok v))
  | (msgs, some (.error e)) => (msgs, some (.error (normalizeVideoError e)))

/-- `VIDEO_LOADING_MESSAGES` from `constants.ts`, rotated by the cosmetic
5-second interval in the controller. -/
def VIDEO_LOADING_MESSAGES : List String :=
  ["Warming up the director" ++ String.singleton (Char.ofNat 39) ++
      "s chair...",
    "Setting up the virtual cameras...",
    "Action! The AI is starting to film.",
    "Rendering your masterpiece, frame by frame.",
    "This can take a few minutes, good things come to those who wait!",
    "Applying final special effects...",
    "Almost ready for the premiere!"]

/-- The `AppStep` union type of `App.tsx`. -/
inductive AppStep
  | UPLOAD
  | STYLE
  | EDIT
  | VIDEO
deriving DecidableEq

/-- The `'16:9' | '9:16'` aspect-ratio union type. -/
inductive Orientation
  | r16x9
  | r9x16
deriving DecidableEq

/-- The React state of the `App` component (one field per `useState` hook
plus the `loadingMessageIntervalRef` ref). -/
structure AppState where
  step : AppStep
  originalImage : Option String
  generatedImage : Option String
  stylePrompt : String
  editPrompt : String
  isLoading : Bool
  loadingMessage : String
  error : Option String
  isChatOpen : Bool
  videoPrompt : String
  aspect : Orientation
  generatedVideoUrl : Option String
  isKeySelected : Bool
  loadingMessageIntervalRef : Option Nat
  isGeneratingAudio : Bool
  generatedAudioUrl : Option String
deriving DecidableEq

/-- Externally visible actions a handler performs: remote service calls,
host credential-capability calls, and timer management. -/
inductive Effect
  | remoteGenerateImage (src prompt : String) (isEdit : Bool)
  | remoteGenerateSpeech (prompt : String)
  | remoteGenerateVideo (src prompt : String)
  | hostQueryHasSelectedKey
  | hostOpenSelectKey
  | startInterval (id : Nat)
  | clearInterval (id : Nat)
deriving DecidableEq

/-- JS truthiness test for a `string | null` state slot: `!x` is true for
`null` and for the empty string. -/
def optFalsy : Option String → Bool
  | none => true
  | some s => s == ""

/-- The host environment seen through `window.aistudio`: whether the object
exists and what `hasSelectedApiKey()` currently reports. -/
structure HostEnv where
  aistudioPresent : Bool
  hasSelectedApiKey : Bool
deriving DecidableEq

/-- Model of `checkApiKey`: when `window.aistudio` exists, query
`hasSelectedApiKey()` and store the answer in `isKeySelected`; otherwise
report `false` without touching state. -/
def checkApiKey (s : AppState) (host : HostEnv) :
    AppState × List Effect × Bool :=
  if host.aistudioPresent then
    ({ s with isKeySelected := host.hasSelectedApiKey },
      [Effect.hostQueryHasSelectedKey], host.hasSelectedApiKey)
  else (s, [], false)

/-- Model of `handleReset`: return to `UPLOAD`, clear the image, artifact,
prompts, loading and error state and the video/audio results, and clear a
pending loading-message interval. -/
def handleReset (s : AppState) : AppState × List Effect :=
  let s1 := { s with
    step := AppStep.UPLOAD,
    originalImage := none,
    generatedImage := none,
    stylePrompt := "",
    editPrompt := "",
    isLoading := false,
    loadingMessage := "",
    error := none,
    videoPrompt := "",
    aspect := Orientation.r16x9,
    generatedVideoUrl := none,
    generatedAudioUrl := none }
  match s.loadingMessageIntervalRef with
  | some id =>
      ({ s1 with loadingMessageIntervalRef := none },
        [Effect.clearInterval id])
  | none => (s1, [])

/-- Model of `handleGenerate`: a guard on the image and style prompt, then
the awaited `generateImage` call whose outcome `remote` the oracle
provides; on success the artifact slot is set and the step moves to
`EDIT`, on a fault the error message is recorded; the `finally` clears
`isLoading`. -/
def handleGenerate (s : AppState) (remote : Except String String) :
    AppState × List Effect :=
  if optFalsy s.originalImage || s.stylePrompt == "" then (s, [])
  else
    let s1 := { s with
      loadingMessage := "Crafting your new headshot... This may take a moment.",
      error := none }
    let eff := [Effect.remoteGenerateImage (s.originalImage.getD "")
      s.stylePrompt false]
    match remote with
    | .ok r =>
        ({ s1 with
            generatedImage := some r,
            step := AppStep.EDIT,
            isLoading := false }, eff)
    | .error e =>
        ({ s1 with error := some e, isLoading := false }, eff)

/-- Model of `handleEdit`: a guard on the artifact and edit prompt, then
clearing the voice-over audio slot, then the awaited edit call; on success
the artifact slot is replaced and the edit prompt cleared. -/
def handleEdit (s : AppState) (remote : Except String String) :
    AppState × List Effect :=
  if optFalsy s.generatedImage || s.editPrompt == "" then (s, [])
  else
    let s1 := { s with
      loadingMessage := "Applying your edits...",
      error := none,
      generatedAudioUrl := none }
    let eff := [Effect.remoteGenerateImage (s.generatedImage.getD "")
      s.editPrompt true]
    match remote with
    | .ok r =>
        ({ s1 with
            generatedImage := some r,
            editPrompt := "",
            isLoading := false }, eff)
    | .error e =>
        ({ s1 with error := some e, isLoading := false }, eff)

/-- Model of `handleGenerateVideo`: a guard on the artifact and video
prompt, then `checkApiKey` (querying the host), the `openSelectKey`
affordance when the gate reported false, the loading-message interval
start, the awaited `generateVideo` call, and the `finally` that clears the
interval and `isLoading`.  `timerId` is the interval id the host
returns. -/
def handleGenerateVideo (s : AppState) (host : HostEnv) (timerId : Nat)
    (remote : Except String String) : AppState × List Effect :=
  if optFalsy s.generatedImage || s.videoPrompt == "" then (s, [])
  else
    match checkApiKey s host with
    | (s1, eff1, hasKey) =>
      let s2 := if hasKey then s1 else { s1 with isKeySelected := true }
      let eff2 := if hasKey then [] else [Effect.hostOpenSelectKey]
      let s3 := { s2 with
        isLoading := true,
        loadingMessage := VIDEO_LOADING_MESSAGES.headD "",
        loadingMessageIntervalRef := some timerId }
      let eff3 := [Effect.startInterval timerId,
        Effect.remoteGenerateVideo (s2.generatedImage.getD "")
          s2.videoPrompt]
      let s4 := match remote with
        | .ok url => { s3 with generatedVideoUrl := some url }
        | .error e => { s3 with error := some e }
      match s4.loadingMessageIntervalRef with
      | some id =>
          ({ s4 with
              loadingMessageIntervalRef := none,
              isLoading := false },
            eff1 ++ eff2 ++ eff3 ++ [Effect.clearInterval id])
      | none =>
          ({ s4 with isLoading := false }, eff1 ++ eff2 ++ eff3)

/-- C3: a full reset from any state returns to `UPLOAD` with the uploaded
image, the artifact, the style, edit and video prompts, the error flag, the
loading flag and the interval ref all cleared, and emits a `clearInterval`
for exactly the pending cosmetic progress timer, if one exists. -/
theorem handleReset_spec (s : AppState) :
    (handleReset s).1.step = AppStep.UPLOAD ∧
    (handleReset s).1.originalImage = none ∧
    (handleReset s).1.generatedImage = none ∧
    (handleReset s).1.stylePrompt = "" ∧
    (handleReset s).1.editPrompt = "" ∧
    (handleReset s).1.videoPrompt = "" ∧
    (handleReset s).1.error = none ∧
    (handleReset s).1.isLoading = false ∧
    (handleReset s).1.loadingMessageIntervalRef = none ∧
    (handleReset s).2 = (match s.loadingMessageIntervalRef with
      | some id => [Effect.clearInterval id]
      | none => []) := by
  cases h : s.loadingMessageIntervalRef <;> simp [handleReset, h]

/-- C4: when a required input is missing — image or style prompt for
generate, artifact or edit prompt for edit, artifact or motion prompt for
animate — the handler is a no-op: the state is returned unchanged and no
effect (in particular no remote call) is issued. -/
theorem requiredInput_noop (s : AppState) :
    ((optFalsy s.originalImage || s.stylePrompt == "") = true →
      ∀ r, handleGenerate s r = (s, [])) ∧
    ((optFalsy s.generatedImage || s.editPrompt == "") = true →
      ∀ r, handleEdit s r = (s, [])) ∧
    ((optFalsy s.generatedImage || s.videoPrompt == "") = true →
      ∀ host timerId r, handleGenerateVideo s host timerId r = (s, [])) := by
  refine ⟨fun h r => ?_, fun h r => ?_, fun h host t r => ?_⟩ <;>
    simp [handleGenerate, handleEdit, handleGenerateVideo, h]

/-- A state with every slot empty. -/
def emptyState : AppState :=
  { step := AppStep.UPLOAD, originalImage := none, generatedImage := none,
    stylePrompt := "", editPrompt := "", isLoading := false,
    loadingMessage := "", error := none, isChatOpen := false,
    videoPrompt := "", aspect := Orientation.r16x9,
    generatedVideoUrl := none, isKeySelected := false,
    loadingMessageIntervalRef := none, isGeneratingAudio := false,
    generatedAudioUrl := none }

/-- Witness for `requiredInput_noop` on the empty state. -/
theorem requiredInput_noop_witness :
    handleGenerate emptyState (.ok "x") = (emptyState, []) ∧
    handleEdit emptyState (.ok "x") = (emptyState, []) ∧
    handleGenerateVideo emptyState ⟨true, true⟩ 1 (.ok "x") =
      (emptyState, []) :=
  ⟨(requiredInput_noop emptyState).1 (by decide) _,
    (requiredInput_noop emptyState).2.1 (by decide) _,
    (requiredInput_noop emptyState).2.2 (by decide) ⟨true, true⟩ 1 _⟩

/-- C5: there is a single artifact slot; a successful generation fills it
and moves to `EDIT`, and a successful edit replaces its contents with the
new result (no history is kept anywhere in the state). -/
theorem singleArtifact_spec (s s2 : AppState) (r r2 : String)
    (hg : (optFalsy s.originalImage || s.stylePrompt == "") = false)
    (he : (optFalsy s2.generatedImage || s2.editPrompt == "") = false) :
    (handleGenerate s (.ok r)).1.generatedImage = some r ∧
    (handleGenerate s (.ok r)).1.step = AppStep.EDIT ∧
    (handleEdit s2 (.ok r2)).1.generatedImage = some r2 := by
  refine ⟨?_, ?_, ?_⟩ <;> simp [handleGenerate, handleEdit, hg, he]

/-- A state ready to generate: image uploaded, style selected. -/
def readyState : AppState :=
  { emptyState with
      step := AppStep.STYLE,
      originalImage := some "data:image/png;base64,AA",
      stylePrompt := "corporate style" }

/-- A state in the edit step with an artifact, an edit prompt and a
previously generated voice-over audio handle. -/
def editState : AppState :=
  { emptyState with
      step := AppStep.EDIT,
      originalImage := some "data:image/png;base64,AA",
      generatedImage := some "data:image/png;base64,QQ",
      stylePrompt := "corporate style",
      editPrompt := "navy suit",
      generatedAudioUrl := some "blob:audio-1" }

/-- Witness for `singleArtifact_spec` on concrete ready/edit states. -/
theorem singleArtifact_spec_witness :
    (handleGenerate readyState (.ok "r1")).1.generatedImage = some "r1" ∧
    (handleGenerate readyState (.ok "r1")).1.step = AppStep.EDIT ∧
    (handleEdit editState (.ok "r2")).1.generatedImage = some "r2" :=
  singleArtifact_spec readyState editState "r1" "r2" (by decide) (by decide)

/-- C10: every edit attempt whose guard passes clears the voice-over audio
slot before the remote call (the call is among the emitted effects), and
the slot stays cleared whether the call succeeds or fails. -/
theorem handleEdit_clearsAudio (s : AppState) (r : Except String String)
    (h : (optFalsy s.generatedImage || s.editPrompt == "") = false) :
    (handleEdit s r).1.generatedAudioUrl = none ∧
    Effect.remoteGenerateImage (s.generatedImage.getD "") s.editPrompt true ∈
      (handleEdit s r).2 := by
  cases r <;> simp [handleEdit, h]

/-- Witness for `handleEdit_clearsAudio`: a failed edit still clears the
previously attached audio handle. -/
theorem handleEdit_clearsAudio_witness :
    (handleEdit editState (.error "boom")).1.generatedAudioUrl = none ∧
    Effect.remoteGenerateImage (editState.generatedImage.getD "")
      editState.editPrompt true ∈ (handleEdit editState (.error "boom")).2 :=
  handleEdit_clearsAudio editState (.error "boom") (by decide)

/-- A `VIDEO`-step state whose credential gate has already become true. -/
def keyState : AppState :=
  { editState with
      step := AppStep.VIDEO,
      videoPrompt := "gentle zoom",
      isKeySelected := true }

/-- C9 counterexample: with the credential gate already true, a video
generation attempt still queries the host capability, and a full reset
leaves the gate set rather than returning it to unchecked. -/
theorem keyGate_counterexample :
    keyState.isKeySelected = true ∧
    Effect.hostQueryHasSelectedKey ∈
      (handleGenerateVideo keyState ⟨true, true⟩ 1 (.ok "blob:v")).2 ∧
    (handleReset keyState).1.isKeySelected = true := by decide

/-- C9 (amended): every video-generation attempt whose guard passes
re-queries the host credential capability whenever `window.aistudio`
exists, regardless of the current gate value, and a full reset leaves
`isKeySelected` unchanged. -/
theorem keyGate_recheck_spec (s : AppState) (host : HostEnv) (tid : Nat)
    (r : Except String String)
    (hpre : (optFalsy s.generatedImage || s.videoPrompt == "") = false)
    (hhost : host.aistudioPresent = true) :
    Effect.hostQueryHasSelectedKey ∈
      (handleGenerateVideo s host tid r).2 ∧
    (handleReset s).1.isKeySelected = s.isKeySelected := by
  constructor
  · cases r <;> simp [handleGenerateVideo, checkApiKey, hpre, hhost]
  · cases h : s.loadingMessageIntervalRef <;> simp [handleReset, h]

/-- Witness for `keyGate_recheck_spec` at the concrete keyed state. -/
theorem keyGate_recheck_spec_witness :
    Effect.hostQueryHasSelectedKey ∈
      (handleGenerateVideo keyState ⟨true, true⟩ 2 (.error "boom")).2 ∧
    (handleReset keyState).1.isKeySelected = keyState.isKeySelected :=
  keyGate_recheck_spec keyState ⟨true, true⟩ 2 (.error "boom") (by decide) rfl

/-- A well-formed data-URL image input. -/
def validImg : List Char := "data:image/png;base64,AAAA".data

deriving instance DecidableEq for Except

/-- C6 counterexample: on a response with no inline image part, the caller
does not observe the internal no-image error; the surfaced error is the
generic service-fault message, identical to what a plain transport fault
produces. -/
theorem generateImage_noImage_counterexample :
    generateImage validImg "p" false (.ok [RespPart.otherPart "hi"]) =
      .error
        "Failed to generate the image due to an API error. Please try again later." ∧
    generateImage validImg "p" false (.ok [RespPart.otherPart "hi"]) ≠
      .error "No image data was found in the API response." ∧
    generateImage validImg "p" false (.ok [RespPart.otherPart "hi"]) =
      generateImage validImg "p" false (.error "transient service fault") := by
  decide

/-- C6 (amended): with a valid input image, a response carrying no inline
image part makes `generateImage` throw the no-image error internally, but
the catch block replaces it: the caller observes the generic service-fault
message. -/
theorem generateImage_noImage_normalized (img : List Char) (prompt : String)
    (isEdit : Bool) (parts : List RespPart)
    (hv : (matchDataUrl img).isSome = true)
    (hno : firstInline parts = none) :
    generateImage img prompt isEdit (.ok parts) =
      .error
        "Failed to generate the image due to an API error. Please try again later." := by
  rcases h : matchDataUrl img with _ | m
  · rw [h] at hv; simp at hv
  · have hn : normalizeImageError
        "No image data was found in the API response." =
        "Failed to generate the image due to an API error. Please try again later." := by
      decide
    simp [generateImage, generateImageBody, h, hno, hn]

/-- Witness for `generateImage_noImage_normalized` on a text-only
response. -/
theorem generateImage_noImage_normalized_witness :
    generateImage validImg "edit it" true (.ok [RespPart.otherPart "t"]) =
      .error
        "Failed to generate the image due to an API error. Please try again later." :=
  generateImage_noImage_normalized validImg "edit it" true
    [RespPart.otherPart "t"] (by decide) (by decide)

/-- A video oracle whose submission throws a `not found` fault that does not
mention `API key`. -/
def vidOracle404 : VideoOracle :=
  { submit := .error "Requested entity was not found.", polls := [],
    fetch := .error "unreached" }

/-- C7 counterexample: the video path has a third classification branch —
a thrown fault containing `not found` but not the credential substring
surfaces as the key-validation message, not as the generic service-fault
message. -/
theorem errorClassification_counterexample :
    containsSub "API key" "Requested entity was not found." = false ∧
    (generateVideoRun validImg vidOracle404).2 =
      some (.error
        "API Key validation failed. Please re-select your API key and try again.") ∧
    (generateVideoRun validImg vidOracle404).2 ≠
      some (.error
        "Failed to generate the video due to an API error. Please try again later.") := by
  decide

/-- C7 (amended): for image and speech, a thrown fault whose message
contains `API key` surfaces as the credential message and every other
fault as the generic message; for video, faults containing `API key`
surface as the credential message, remaining faults containing
`not found` as the key-validation message, and all others as the generic
message. -/
theorem errorClassification_spec (e : String) (img : List Char)
    (prompt : String) (isEdit : Bool)
    (rimg : Except String (List RespPart))
    (rsp : Except String (Option String)) (o : VideoOracle) :
    (generateImageBody img rimg = .error e →
      (containsSub "API key" e = true →
        generateImage img prompt isEdit rimg =
          .error
            "The API key is invalid or missing. Please check your configuration.") ∧
      (containsSub "API key" e = false →
        generateImage img prompt isEdit rimg =
          .error
            "Failed to generate the image due to an API error. Please try again later.")) ∧
    (generateSpeechBody rsp = .error e →
      (containsSub "API key" e = true →
        generateSpeech rsp =
          .error
            "The API key is invalid or missing. Please check your configuration.") ∧
      (containsSub "API key" e = false →
        generateSpeech rsp =
          .error "Failed to generate audio due to an API error.")) ∧
    ((generateVideoBody img o).2 = some (.error e) →
      (containsSub "API key" e = true →
        (generateVideoRun img o).2 =
          some (.error
            "The API key is invalid or missing. Please select a valid key and try again.")) ∧
      (containsSub "API key" e = false → containsSub "not found" e = true →
        (generateVideoRun img o).2 =
          some (.error
            "API Key validation failed. Please re-select your API key and try again.")) ∧
      (containsSub "API key" e = false → containsSub "not found" e = false →
        (generateVideoRun img o).2 =
          some (.error
            "Failed to generate the video due to an API error. Please try again later."))) := by
  refine ⟨fun hb => ⟨fun hc => ?_, fun hc => ?_⟩,
    fun hb => ⟨fun hc => ?_, fun hc => ?_⟩,
    fun hb => ⟨fun hc => ?_, fun hc hn => ?_, fun hc hn => ?_⟩⟩
  · simp [generateImage, hb, normalizeImageError, hc]
  · simp [generateImage, hb, normalizeImageError, hc]
  · simp [generateSpeech, hb, normalizeSpeechError, hc]
  · simp [generateSpeech, hb, normalizeSpeechError, hc]
  all_goals
    rcases hbp : generateVideoBody img o with ⟨msgs, res⟩
  all_goals
    rw [hbp] at hb
  all_goals
    simp only at hb
  · simp [generateVideoRun, hbp, hb, normalizeVideoError, hc]
  · simp [generateVideoRun, hbp, hb, normalizeVideoError, hc, hn]
  · simp [generateVideoRun, hbp, hb, normalizeVideoError, hc, hn]

/-- Witness for `errorClassification_spec`: a thrown speech fault
mentioning `API key` surfaces as the credential message. -/
theorem errorClassification_spec_witness :
    generateSpeechBody (.error "bad API key supplied") =
      .error "bad API key supplied" ∧
    containsSub "API key" "bad API key supplied" = true ∧
    generateSpeech (.error "bad API key supplied") =
      .error
        "The API key is invalid or missing. Please check your configuration." :=
  ⟨rfl, by decide,
    ((errorClassification_spec "bad API key supplied" validImg "p" false
      (.error "bad API key supplied") (.error "bad API key supplied")
      vidOracle404).2.1 rfl).1 (by decide)⟩

/-- The three fixed `onProgress` checkpoint messages of `generateVideo`,
in source order. -/
def progressFixed : List String :=
  ["Initiating video generation...",
    "Generation in progress... This may take several minutes.",
    "Downloading generated video..."]

theorem generateVideoRun_fst (img : List Char) (o : VideoOracle) :
    (generateVideoRun img o).1 = (generateVideoBody img o).1 := by
  rcases hb : generateVideoBody img o with ⟨msgs, res⟩
  rcases res with _ | r
  · simp [generateVideoRun, hb]
  · rcases r with e | v <;> simp [generateVideoRun, hb]

theorem generateVideoRun_ok (img : List Char) (o : VideoOracle)
    (v : List Nat) (h : (generateVideoRun img o).2 = some (.ok v)) :
    (generateVideoBody img o).2 = some (.ok v) := by
  rcases hb : generateVideoBody img o with ⟨msgs, res⟩
  rcases res with _ | r
  · simp [generateVideoRun, hb] at h
  · rcases r with e | w
    · simp [generateVideoRun, hb] at h
    · simp [generateVideoRun, hb] at h
      simp [h]

theorem generateVideoBody_msgs (img : List Char) (o : VideoOracle) :
    (∃ k, (generateVideoBody img o).1 = progressFixed.take k) ∧
    (∀ v, (generateVideoBody img o).2 = some (.ok v) →
      (generateVideoBody img o).1 = progressFixed) := by
  rcases hm : matchDataUrl img with _ | m
  · exact ⟨⟨0, by simp [generateVideoBody, hm]⟩,
      fun v hv => by simp [generateVideoBody, hm] at hv⟩
  · rcases hs : o.submit with e | op
    · exact ⟨⟨1, by simp [generateVideoBody, hm, hs, progressFixed]⟩,
        fun v hv => by simp [generateVideoBody, hm, hs] at hv⟩
    · rcases hp : pollUntilDone op o.polls with _ | er
      · exact ⟨⟨2, by simp [generateVideoBody, hm, hs, hp, progressFixed]⟩,
          fun v hv => by simp [generateVideoBody, hm, hs, hp] at hv⟩
      · rcases er with e | fop
        · exact ⟨⟨2, by simp [generateVideoBody, hm, hs, hp, progressFixed]⟩,
            fun v hv => by simp [generateVideoBody, hm, hs, hp] at hv⟩
        · rcases hu : fop.uri with _ | u
          · exact ⟨⟨2, by simp [generateVideoBody, hm, hs, hp, hu,
                progressFixed]⟩,
              fun v hv => by simp [generateVideoBody, hm, hs, hp, hu] at hv⟩
          · rcases hf : o.fetch with e | resp
            · exact ⟨⟨3, by simp [generateVideoBody, hm, hs, hp, hu, hf,
                  progressFixed]⟩,
                fun v hv => by
                  simp [generateVideoBody, hm, hs, hp, hu, hf] at hv⟩
            · cases ho : resp.ok
              · exact ⟨⟨3, by simp [generateVideoBody, hm, hs, hp, hu, hf,
                    ho, progressFixed]⟩,
                  fun v hv => by
                    simp [generateVideoBody, hm, hs, hp, hu, hf, ho] at hv⟩
              · exact ⟨⟨3, by simp [generateVideoBody, hm, hs, hp, hu, hf,
                    ho, progressFixed]⟩,
                  fun v hv => by simp [generateVideoBody, hm, hs, hp, hu, hf,
                    ho, progressFixed]⟩

/-- A happy-path oracle: the submission immediately reports done with a
URI and the download succeeds. -/
def happyOracle : VideoOracle :=
  { submit := .ok { done := true, uri := some "https://video" }, polls := [],
    fetch := .ok { ok := true, statusText := "OK", blobBytes := [7, 7] } }

/-- C8 counterexample: a successful video generation invokes `onProgress`
three times — initiating, in progress, and downloading — not exactly
twice. -/
theorem onProgress_counterexample :
    (generateVideoRun validImg happyOracle).1 =
      ["Initiating video generation...",
        "Generation in progress... This may take several minutes.",
        "Downloading generated video..."] ∧
    (generateVideoRun validImg happyOracle).1.length ≠ 2 := by
  decide

/-- C8 (amended): in every execution the `onProgress` invocations form a
prefix of the three fixed checkpoint messages (initiating, in progress,
downloading); a successful run invokes all three; and no invocation ever
carries one of the cosmetic 5-second rotation messages. -/
theorem onProgress_checkpoints_spec (img : List Char) (o : VideoOracle) :
    (∃ k, (generateVideoRun img o).1 = progressFixed.take k) ∧
    (∀ v, (generateVideoRun img o).2 = some (.ok v) →
      (generateVideoRun img o).1 = progressFixed) ∧
    (∀ m, m ∈ (generateVideoRun img o).1 → m ∉ VIDEO_LOADING_MESSAGES) := by
  have hfst := generateVideoRun_fst img o
  have hmsgs := generateVideoBody_msgs img o
  refine ⟨hfst ▸ hmsgs.1, fun v hv => ?_, fun m hm => ?_⟩
  · rw [hfst]
    exact hmsgs.2 v (generateVideoRun_ok img o v hv)
  · rcases hmsgs.1 with ⟨k, hk⟩
    rw [hfst, hk] at hm
    have hmem : m ∈ progressFixed := List.take_subset _ _ hm
    have hdis : ∀ x ∈ progressFixed, x ∉ VIDEO_LOADING_MESSAGES := by decide
    exact hdis m hmem

/-- An oracle that exercises the polling loop and the download. -/
def pollingOracle : VideoOracle :=
  { submit := .ok { done := false, uri := none },
    polls := [.ok { done := true, uri := some "https://video" }],
    fetch := .ok { ok := true, statusText := "OK", blobBytes := [1, 2] } }

/-- Witness for `onProgress_checkpoints_spec`: a successful polling run
emits exactly the three fixed checkpoint messages. -/
theorem onProgress_checkpoints_spec_witness :
    (generateVideoRun validImg pollingOracle).2 = some (.ok [1, 2]) ∧
    (generateVideoRun validImg pollingOracle).1 = progressFixed :=
  ⟨by decide,
    (onProgress_checkpoints_spec validImg pollingOracle).2.1 [1, 2]
      (by decide)⟩

end Photograf
